import Mathlib

/-!
Shallow embedding of the mcp-chrome-connector core (SecurityValidator,
BrowserManager) and proofs about it.

Strings are modelled as Lean `String`s; the character-level scanning
functions below reproduce the JavaScript operations the source uses
(`String.prototype.includes`, the specific regular expressions of the
validator, and the `replace` chains of `htmlToMarkdown`).
-/

namespace ChromeConnector

/-- JS `hay.startsWith(pat)` on character lists (exact, case-sensitive). -/
def startsWithList : List Char → List Char → Bool
  | _, [] => true
  | [], _ :: _ => false
  | c :: cs, p :: ps => c == p && startsWithList cs ps

/-- JS `hay.includes(pat)` on character lists: `pat` occurs as a contiguous
substring of `hay`. -/
def containsList : List Char → List Char → Bool
  | [], pat => pat.isEmpty
  | c :: cs, pat => startsWithList (c :: cs) pat || containsList cs pat

/-- JS `hay.includes(sub)` (exact, case-sensitive substring test). -/
def jsIncludes (hay sub : String) : Bool :=
  containsList hay.data sub.data

/-- Case-insensitive substring test: models `/pat/i.test(hay)` for a regex
`pat` that is a literal string. -/
def ciIncludes (hay sub : String) : Bool :=
  containsList (hay.data.map Char.toLower) (sub.data.map Char.toLower)

/-- The characters matched by the JS regex class `\s` (the ASCII portion plus
NBSP and BOM; other Unicode space characters are not used by any input in this
development). -/
def jsWhitespace (c : Char) : Bool :=
  c == ' ' || c == '\t' || c == '\n' || c == '\r' ||
  c.val == 11 || c.val == 12 || c.val == 160 || c.val == 0xfeff

/-- Drop the longest `\s*` run at the head of the list. -/
def skipJsWs : List Char → List Char
  | [] => []
  | c :: cs => if jsWhitespace c then skipJsWs cs else c :: cs

/-- One-position test for the regex shape `word\s*ch`: `word` matches here,
then any run of whitespace, then the single character `ch`.  (Since `ch` is
never itself a whitespace character in the validator's patterns, the greedy
`\s*` needs no backtracking.) -/
def wordWsCharAt (word : List Char) (ch : Char) (s : List Char) : Bool :=
  startsWithList s word &&
    (match skipJsWs (s.drop word.length) with
      | [] => false
      | c :: _ => c == ch)

/-- `/word\s*ch/.test s`: the shape `word\s*ch` occurs anywhere in `s`. -/
def scanWordWsChar (word : List Char) (ch : Char) : List Char → Bool
  | [] => wordWsCharAt word ch []
  | c :: cs => wordWsCharAt word ch (c :: cs) || scanWordWsChar word ch cs

/-! ## SecurityValidator (src/security/validator.ts) -/

/-- `SecurityConfig` from src/types/index.ts; `Option` models the optional
(`?`) fields, `none` being JS `undefined`. -/
structure SecurityConfig where
  allowedDomains : Option (List String)
  blockedDomains : Option (List String)
  maxExecutionTime : Option Nat
  maxMemoryUsage : Option Nat
  enableSandbox : Option Bool
deriving DecidableEq

/-- The outcome of `new URL(url)` when it succeeds: the fields of the parsed
URL the manager and validator read.  `protocol` carries the trailing colon
(`"https:"`), as in the WHATWG URL API.  An unparseable URL string is
represented by `none : Option ParsedUrl` at the call sites. -/
structure ParsedUrl where
  protocol : String
  hostname : String
  origin : String
deriving DecidableEq

/-- The `{ valid: boolean; error?: string }` result shape of the validator. -/
structure ValidationResult where
  valid : Bool
  error : Option String
deriving DecidableEq

/-- `SecurityValidator.validateUrl`.  The argument is the result of
`new URL(url)` (`none` = the constructor threw, the `catch` branch).  Checks
run in source order: blocked domains, then the allow-list, then the protocol
white-list.  `Option.getD []` renders the JS truthiness guard
`if (this.config.blockedDomains)`: an absent list and an empty list both let
every hostname through, and an absent or empty allow-list imposes nothing
(the source guards with `allowedDomains && allowedDomains.length > 0`). -/
def validateUrl (cfg : SecurityConfig) (u : Option ParsedUrl) : ValidationResult :=
  match u with
  | none => { valid := false, error := some "Invalid URL format" }
  | some url =>
    if (cfg.blockedDomains.getD []).any (fun b => jsIncludes url.hostname b) then
      { valid := false, error := some ("Domain " ++ url.hostname ++ " is blocked") }
    else if decide (cfg.allowedDomains.getD [] ≠ []) &&
        !((cfg.allowedDomains.getD []).any (fun d => jsIncludes url.hostname d)) then
      { valid := false, error := some ("Domain " ++ url.hostname ++ " is not in allowed list") }
    else if url.protocol == "http:" || url.protocol == "https:" then
      { valid := true, error := none }
    else
      { valid := false, error := some ("Protocol " ++ url.protocol ++ " is not allowed") }

/-- The denylist of `validateScript`, pattern by pattern in source order:
`/eval\s*\(/i`, `/Function\s*\(/i`, `/setTimeout\s*\(/i`, `/setInterval\s*\(/i`,
`/document\.write/i`, `/innerHTML\s*=/i`, `/outerHTML\s*=/i`, `/location\s*=/i`,
`/window\s*\./i`, `/document\.cookie/i`, `/localStorage/i`, `/sessionStorage/i`.
Case-insensitivity is rendered by lowering the script once and matching
lowered words. -/
def containsDangerousScriptPattern (s : String) : Bool :=
  let l := s.data.map Char.toLower
  scanWordWsChar "eval".data '(' l ||
  scanWordWsChar "function".data '(' l ||
  scanWordWsChar "settimeout".data '(' l ||
  scanWordWsChar "setinterval".data '(' l ||
  containsList l "document.write".data ||
  scanWordWsChar "innerhtml".data '=' l ||
  scanWordWsChar "outerhtml".data '=' l ||
  scanWordWsChar "location".data '=' l ||
  scanWordWsChar "window".data '.' l ||
  containsList l "document.cookie".data ||
  containsList l "localstorage".data ||
  containsList l "sessionstorage".data

/-- `SecurityValidator.validateScript`.  The Joi schema
`Joi.string().max(10000).required()` rejects the empty string (Joi strings
disallow `''` unless `.allow('')`) and anything over 10000 characters; both
checks run before the denylist scan.  Error texts abbreviate Joi's generated
messages. -/
def validateScript (script : String) : ValidationResult :=
  if script.length = 0 then
    { valid := false, error := some "Invalid script: is not allowed to be empty" }
  else if script.length > 10000 then
    { valid := false, error := some "Invalid script: length must be less than or equal to 10000 characters long" }
  else if containsDangerousScriptPattern script then
    { valid := false, error := some "Script contains potentially dangerous operations" }
  else
    { valid := true, error := none }

/-- `SecurityValidator.validateInputText`: Joi
`string().max(10000).allow('').required()` — a pure length cap, empty
allowed. -/
def validateInputText (text : String) : ValidationResult :=
  if text.length > 10000 then
    { valid := false, error := some "Invalid input text: length must be less than or equal to 10000 characters long" }
  else
    { valid := true, error := none }

/-- `defaultSecurityConfig` from src/security/validator.ts. -/
def defaultSecurityConfig : SecurityConfig :=
  { allowedDomains := some []
    blockedDomains := some ["localhost", "127.0.0.1", "0.0.0.0", "file://", "ftp://"]
    maxExecutionTime := some 30000
    maxMemoryUsage := some 512
    enableSandbox := some true }

/-- One character of the Joi selector pattern class
`[a-zA-Z0-9\s\-_\[\]='".:>#,\(\)]`. -/
def selectorAllowedChar (c : Char) : Bool :=
  ('a' ≤ c && c ≤ 'z') || ('A' ≤ c && c ≤ 'Z') || ('0' ≤ c && c ≤ '9') ||
  jsWhitespace c || c == '-' || c == '_' || c == '[' || c == ']' || c == '=' ||
  c == '\'' || c == '"' || c == '.' || c == ':' || c == '>' || c == '#' ||
  c == ',' || c == '(' || c == ')'

/-- `SecurityValidator.validateSelector`: Joi
`string().max(1000).pattern(...).required()` (non-empty, at most 1000
characters, every character in the allowed class), then the fixed dangerous
substrings `/javascript:/i`, `/expression\(/i`, `/script:/i`, `/vbscript:/i`,
`/onload=/i`, `/onerror=/i`. -/
def validateSelector (selector : String) : ValidationResult :=
  if selector.length = 0 then
    { valid := false, error := some "Invalid selector: is not allowed to be empty" }
  else if selector.length > 1000 then
    { valid := false, error := some "Invalid selector: length must be less than or equal to 1000 characters long" }
  else if !(selector.data.all selectorAllowedChar) then
    { valid := false, error := some "Invalid selector: fails to match the required pattern" }
  else if ciIncludes selector "javascript:" || ciIncludes selector "expression(" ||
      ciIncludes selector "script:" || ciIncludes selector "vbscript:" ||
      ciIncludes selector "onload=" || ciIncludes selector "onerror=" then
    { valid := false, error := some "Selector contains potentially dangerous content" }
  else
    { valid := true, error := none }

/-! ## BrowserManager (src/browser/manager.ts): session store and lifecycle

Playwright handles (the browser process, one browsing context, one page) are
opaque to the manager; the embedding represents each by a `Nat` identity drawn
from a fresh-handle counter `nextHandle`, so that "same context" is handle
equality.  `now` stands for the `Date` clock (it is read, never compared). -/

/-- `viewport` shape of `BrowserConfig`. -/
structure Viewport where
  width : Nat
  height : Nat
deriving DecidableEq

/-- `BrowserConfig` from src/types/index.ts. -/
structure BrowserConfig where
  headless : Option Bool
  viewport : Option Viewport
  timeout : Option Nat
  userDataDir : Option String
  args : List String
deriving DecidableEq

/-- `BrowserSession` from src/types/index.ts: `context`/`page` are the handle
identities of the Playwright objects the session exclusively owns. -/
structure Session where
  id : String
  context : Nat
  page : Nat
  createdAt : Nat
  lastActivity : Nat
  config : BrowserConfig
deriving DecidableEq

/-- The mutable fields of `BrowserManager`: the shared browser handle
(`null` = `none`), the session `Map` (insertion-ordered association list, as
a JS `Map` iterates), the fresh-handle counter and the clock. -/
structure ManagerState where
  browser : Option Nat
  sessions : List (String × Session)
  config : BrowserConfig
  nextHandle : Nat
  now : Nat
deriving DecidableEq

/-- JS `Map.prototype.get` on the association list (first match). -/
def mapGet : List (String × Session) → String → Option Session
  | [], _ => none
  | (k', v) :: rest, k => if k' = k then some v else mapGet rest k

/-- JS `Map.prototype.set`: replace in place if the key exists, else append. -/
def mapSet : List (String × Session) → String → Session → List (String × Session)
  | [], k, v => [(k, v)]
  | (k', v') :: rest, k, v =>
    if k' = k then (k, v) :: rest else (k', v') :: mapSet rest k v

/-- All context and page handles owned by the sessions of the map, in map
order. -/
def handleList : List (String × Session) → List Nat
  | [] => []
  | (_, v) :: rest => v.context :: v.page :: handleList rest

/-- Well-formedness that the manager maintains: every owned handle is below
the fresh counter, and no handle is owned twice (Playwright never returns the
same object for two `newContext()`/`newPage()` calls). -/
def StateWF (st : ManagerState) : Prop :=
  (∀ h ∈ handleList st.sessions, h < st.nextHandle) ∧ (handleList st.sessions).Nodup

/-- The `if (!this.browser) await this.initialize();` step of `createSession`:
launching the shared browser allocates one fresh handle. -/
def initBrowser (st : ManagerState) : ManagerState :=
  if st.browser.isNone then
    { st with browser := some st.nextHandle, nextHandle := st.nextHandle + 1 }
  else st

/-- `const id = sessionId || this.generateSessionId();` — the empty string is
falsy in JS; `gen` stands for `generateSessionId` (Date/Math.random based,
modelled as an arbitrary function of the state). -/
def resolveSessionId (gen : ManagerState → String) (st : ManagerState) :
    Option String → String
  | some s => if s = "" then gen st else s
  | none => gen st

/-- The `BrowserSession` record built by `createSession`: a fresh context
handle, a fresh page handle within it, both timestamps set to now, and the
manager's configuration snapshot. -/
def freshSession (st : ManagerState) (id : String) : Session :=
  { id := id, context := st.nextHandle, page := st.nextHandle + 1,
    createdAt := st.now, lastActivity := st.now, config := st.config }

/-- `BrowserManager.createSession` on the success path (context and page
creation succeed): initialize the browser if absent, resolve the identifier,
open a context and page, store the session, return its id. -/
def createSession (gen : ManagerState → String) (st0 : ManagerState)
    (sessionId : Option String) : String × ManagerState :=
  let st := initBrowser st0
  let id := resolveSessionId gen st sessionId
  (id, { st with
          sessions := mapSet st.sessions id (freshSession st id)
          nextHandle := st.nextHandle + 2 })

/-- `BrowserManager.getSession`: a truthy identifier that is a known key
touches `lastActivity` and returns the stored session; otherwise
`createSession` runs and the freshly stored session is returned
(`this.sessions.get(newSessionId)!`, rendered as an `Option` lookup that the
theorems show is always `some`). -/
def getSession (gen : ManagerState → String) (st : ManagerState)
    (sessionId : Option String) : Option Session × ManagerState :=
  match sessionId with
  | some sid =>
    if sid = "" then
      let (nid, st') := createSession gen st (some sid)
      (mapGet st'.sessions nid, st')
    else
      match mapGet st.sessions sid with
      | some sess =>
        let sess' := { sess with lastActivity := st.now }
        (some sess', { st with sessions := mapSet st.sessions sid sess' })
      | none =>
        let (nid, st') := createSession gen st (some sid)
        (mapGet st'.sessions nid, st')
  | none =>
    let (nid, st') := createSession gen st none
    (mapGet st'.sessions nid, st')

/-- The `session.lastActivity = new Date()` touch performed by `getSession`
on a known session. -/
def touchedSession (st : ManagerState) (sess : Session) : Session :=
  { sess with lastActivity := st.now }

/-- Manager state after `getSession` touches the known session at `id`. -/
def touchState (st : ManagerState) (id : String) (sess : Session) : ManagerState :=
  { st with sessions := mapSet st.sessions id (touchedSession st sess) }

/-- Manager state after `createSession` stores a fresh session at `id`. -/
def createState (st : ManagerState) (id : String) : ManagerState :=
  { initBrowser st with
     sessions := mapSet (initBrowser st).sessions id (freshSession (initBrowser st) id)
     nextHandle := (initBrowser st).nextHandle + 2 }

/-- The `for (const [sessionId, session] of this.sessions) await
session.context.close();` loop of `cleanup`.  `fail c = true` models
`context.close()` rejecting for the context with handle `c`.  Returns the
handles closed before any failure, and the handle whose close threw, if any
(the exception aborts the loop). -/
def closeAllContexts (fail : Nat → Bool) : List (String × Session) → List Nat × Option Nat
  | [] => ([], none)
  | (_, v) :: rest =>
    if fail v.context then ([], some v.context)
    else
      let (cs, e) := closeAllContexts fail rest
      (v.context :: cs, e)

/-- `BrowserManager.cleanup`.  Closes every session context in map order (no
try/catch: the first rejection propagates out of `cleanup`), then clears the
map, then closes the shared browser (`bfail` models that close rejecting).
Returns the context handles whose close completed, the escaped error message
if any, and the resulting manager state (unchanged when the loop threw, since
`sessions.clear()` runs only after the loop). -/
def cleanup (fail : Nat → Bool) (bfail : Bool) (st : ManagerState) :
    List Nat × Option String × ManagerState :=
  match closeAllContexts fail st.sessions with
  | (cs, some c) => (cs, some ("context close failed: " ++ toString c), st)
  | (cs, none) =>
    let st1 : ManagerState := { st with sessions := [] }
    match st1.browser with
    | some _ =>
      if bfail then (cs, some "browser close failed", st1)
      else (cs, none, { st1 with browser := none })
    | none => (cs, none, st1)

/-- JS `a || b` for an optional numeric option: `undefined` and `0` are both
falsy. -/
def jsOrNum (a : Option Nat) (b : Nat) : Nat :=
  match a with
  | some n => if n = 0 then b else n
  | none => b

/-- JS `a || b` for an optional string option: `undefined` and `""` are both
falsy. -/
def jsOrStr (a : Option String) (b : String) : String :=
  match a with
  | some s => if s = "" then b else s
  | none => b

/-- JS `s.endsWith(suf)`. -/
def jsEndsWith (s suf : String) : Bool :=
  startsWithList s.data.reverse suf.data.reverse

/-- One `page.goto(url, { waitUntil, timeout })` call issued by `navigate`. -/
structure NavigateCall where
  url : String
  waitUntil : String
  timeout : Nat
deriving DecidableEq

/-- The `options` argument of `BrowserManager.navigate` (the fields it
reads). -/
structure NavigationOptions where
  waitUntil : Option String
  timeout : Option Nat
deriving DecidableEq

/-- `BrowserManager.navigate`, observed as the sequence of `page.goto` calls
it issues.  `parse` is the WHATWG `new URL` constructor (also used inside
`validateUrl`); `gotoFails c = true` models that goto rejecting (timeout, DNS
failure, …), which the `catch` turns into a soft `{success:false}` result —
subsequent gotos are then not attempted.  `Except.error` is the thrown URL
validation error.  The result carries the goto calls issued in order and the
`success` flag of the returned result.  When the URL contains `/products/`
and does not end with `/`, the source first visits the URL's origin
(`domcontentloaded`, same timeout) before the target goto. -/
def navigate (sec : SecurityConfig) (cfg : BrowserConfig)
    (parse : String → Option ParsedUrl) (gotoFails : NavigateCall → Bool)
    (url : String) (opts : NavigationOptions) :
    Except String (List NavigateCall × Bool) :=
  let v := validateUrl sec (parse url)
  if v.valid = false then Except.error (v.error.getD "") else
  match parse url with
  | none => Except.error "Invalid URL format"
  | some u =>
    let t := jsOrNum opts.timeout (jsOrNum cfg.timeout 30000)
    let target : NavigateCall := { url := url, waitUntil := jsOrStr opts.waitUntil "domcontentloaded", timeout := t }
    if jsIncludes url "/products/" && !(jsEndsWith url "/") then
      let home : NavigateCall := { url := u.origin, waitUntil := "domcontentloaded", timeout := t }
      if gotoFails home then Except.ok ([home], false)
      else if gotoFails target then Except.ok ([home, target], false)
      else Except.ok ([home, target], true)
    else
      if gotoFails target then Except.ok ([target], false)
      else Except.ok ([target], true)

/-- Nested `options` of `ElementInteractionOptions` from src/types/index.ts. -/
structure InteractionSubOptions where
  delay : Option Nat
  force : Option Bool
  timeout : Option Nat
deriving DecidableEq

/-- `ElementInteractionOptions` from src/types/index.ts. -/
structure ElementInteractionOptions where
  selector : String
  action : String
  value : Option String
  options : Option InteractionSubOptions
deriving DecidableEq

/-- `element` payload of a successful `InteractionResult`. -/
structure ElementInfo where
  tagName : String
  text : String
  value : Option String
deriving DecidableEq

/-- `InteractionResult` from src/types/index.ts. -/
structure InteractionResult where
  success : Bool
  element : Option ElementInfo
  error : Option String
deriving DecidableEq

/-- The behaviour of the located element, as the browser capability would
answer `interactElement`'s calls on it: whether `locator.waitFor` resolves
within the timeout, whether the dispatched action call resolves (by action
name: click / fill / selectOption / hover / focus / clear), whether the
post-action info gathering (`evaluate`/`textContent`) resolves, and the
element's tag name, text content (`none` = null) and input value (`none` =
`inputValue()` rejected, e.g. a non-form element). -/
structure ElementOracle where
  waitForOk : Bool
  actionFails : String → Bool
  infoOk : Bool
  tagName : String
  text : Option String
  inputValue : Option String

/-- The element info `interactElement` reads back after a successful action:
`tagName` via `evaluate`, `text` via `textContent() || ''`, `value` via
`inputValue().catch(() => undefined)`. -/
def readElementInfo (o : ElementOracle) : ElementInfo :=
  { tagName := o.tagName, text := o.text.getD "", value := o.inputValue }

/-- Soft failure result produced by `interactElement`'s `catch` branch. -/
def interactionFailure (msg : String) : InteractionResult :=
  { success := false, element := none, error := some msg }

/-- `BrowserManager.interactElement`, observed as the list of browser calls
made on the session's page/element alongside the result.  The selector
validation throw (`Except.error`) happens before any browser call.  All later
throws — `waitFor` timing out, `validateInputText` rejecting a `type` value,
an action call rejecting, the `default: throw new Error('Unsupported
action')`, info gathering rejecting — happen inside the `try` and are caught,
yielding a soft `{success:false}` result.  Note `if (options.value)`: a
missing or empty `value` skips both the text validation and the fill/select
call. -/
def interactElement (o : ElementOracle) (opts : ElementInteractionOptions) :
    Except String (List String × InteractionResult) :=
  let sv := validateSelector opts.selector
  if sv.valid = false then Except.error (sv.error.getD "") else
  -- `const element = session.page.locator(options.selector);`
  -- `await element.waitFor({ timeout: options.options?.timeout || 5000 });`
  if o.waitForOk = false then
    Except.ok (["locator", "waitFor"], interactionFailure "Timeout waiting for element")
  else
    -- info gathering (one block: evaluate, textContent, inputValue)
    let infoCalls : List String := ["evaluate", "textContent", "inputValue"]
    let info : InteractionResult :=
      if o.infoOk = false then interactionFailure "info gathering failed"
      else { success := true, element := some (readElementInfo o), error := none }
    match opts.action with
    | "click" =>
      if o.actionFails "click" then
        Except.ok (["locator", "waitFor", "click"], interactionFailure "click failed")
      else Except.ok (["locator", "waitFor", "click"] ++ infoCalls, info)
    | "type" =>
      match opts.value with
      | some v =>
        if v = "" then Except.ok (["locator", "waitFor"] ++ infoCalls, info)
        else
          let tv := validateInputText v
          if tv.valid = false then
            Except.ok (["locator", "waitFor"], interactionFailure (tv.error.getD ""))
          else if o.actionFails "fill" then
            Except.ok (["locator", "waitFor", "fill"], interactionFailure "fill failed")
          else Except.ok (["locator", "waitFor", "fill"] ++ infoCalls, info)
      | none => Except.ok (["locator", "waitFor"] ++ infoCalls, info)
    | "select" =>
      match opts.value with
      | some v =>
        if v = "" then Except.ok (["locator", "waitFor"] ++ infoCalls, info)
        else if o.actionFails "selectOption" then
          Except.ok (["locator", "waitFor", "selectOption"], interactionFailure "selectOption failed")
        else Except.ok (["locator", "waitFor", "selectOption"] ++ infoCalls, info)
      | none => Except.ok (["locator", "waitFor"] ++ infoCalls, info)
    | "hover" =>
      if o.actionFails "hover" then
        Except.ok (["locator", "waitFor", "hover"], interactionFailure "hover failed")
      else Except.ok (["locator", "waitFor", "hover"] ++ infoCalls, info)
    | "focus" =>
      if o.actionFails "focus" then
        Except.ok (["locator", "waitFor", "focus"], interactionFailure "focus failed")
      else Except.ok (["locator", "waitFor", "focus"] ++ infoCalls, info)
    | "clear" =>
      if o.actionFails "clear" then
        Except.ok (["locator", "waitFor", "clear"], interactionFailure "clear failed")
      else Except.ok (["locator", "waitFor", "clear"] ++ infoCalls, info)
    | _ =>
      Except.ok (["locator", "waitFor"],
        interactionFailure ("Unsupported action: " ++ opts.action))

/-! ## htmlToMarkdown (src/browser/manager.ts)

The source is a chain of `String.prototype.replace` calls with global,
case-insensitive regexes.  Each pattern shape is reproduced exactly: scanning
is left to right, a replacement is not rescanned, `[^>]*` followed by a
literal `>` splits at the first `>`, `(.*?)` is non-greedy and does not cross
a newline (JS `.`), and greedy sub-patterns backtrack from longest to
shortest. -/

/-- Case-insensitive `startsWith` on character lists (regex `/i` flag). -/
def startsWithListCI : List Char → List Char → Bool
  | _, [] => true
  | [], _ :: _ => false
  | c :: cs, p :: ps => c.toLower == p.toLower && startsWithListCI cs ps

/-- Split at the first `>`: the remainder after it, or `none` (the regex
piece `[^>]*>`). -/
def splitFirstGt : List Char → Option (List Char)
  | [] => none
  | c :: cs => if c == '>' then some cs else splitFirstGt cs

/-- Split at the first `"`: characters before it and the remainder after it
(the regex piece `([^"]*)"`). -/
def splitFirstQuote : List Char → Option (List Char × List Char)
  | [] => none
  | c :: cs =>
    if c == '"' then some ([], cs)
    else match splitFirstQuote cs with
      | some (pre, rest) => some (c :: pre, rest)
      | none => none

/-- The regex piece `(.*?)close`: the shortest prefix (not containing a
newline, since JS `.` does not match line terminators) up to a
case-insensitive occurrence of `close`, returning (captured prefix, remainder
after `close`). -/
def findCloseSplit (close : List Char) : List Char → Option (List Char × List Char)
  | [] => none
  | c :: cs =>
    if startsWithListCI (c :: cs) close then some ([], (c :: cs).drop close.length)
    else if c == '\n' || c == '\r' then none
    else match findCloseSplit close cs with
      | some (content, rest) => some (c :: content, rest)
      | none => none

/-- Try `<tag[^>]*>(.*?)</tag>` (case-insensitive) at the head of the list:
on a match, the captured content and the remainder after the close tag. -/
def tryTagAt (tag : List Char) (s : List Char) : Option (List Char × List Char) :=
  if startsWithListCI s ('<' :: tag) then
    match splitFirstGt (s.drop (tag.length + 1)) with
    | none => none
    | some afterOpen => findCloseSplit ('<' :: '/' :: (tag ++ ['>'])) afterOpen
  else none

/-- Global replace of `/<tag[^>]*>(.*?)<\/tag>/gi` by `pre ++ $1 ++ post`;
the fuel is the input length (each match consumes at least one character). -/
def replaceTagAux (tag pre post : List Char) : Nat → List Char → List Char
  | _, [] => []
  | 0, s => s
  | fuel + 1, c :: cs =>
    match tryTagAt tag (c :: cs) with
    | some (content, rest) => pre ++ content ++ post ++ replaceTagAux tag pre post fuel rest
    | none => c :: replaceTagAux tag pre post fuel cs

/-- `html.replace(/<tag[^>]*>(.*?)<\/tag>/gi, pre + '$1' + post)`. -/
def replaceTagWrap (tag pre post : String) (s : List Char) : List Char :=
  replaceTagAux tag.data pre.data post.data s.length s

/-- First `some` among candidates, in order (regex backtracking order). -/
def firstSome {α β : Type} (f : α → Option β) : List α → Option β
  | [] => none
  | a :: rest =>
    match f a with
    | some b => some b
    | none => firstSome f rest

/-- Candidate positions for the backtracking `[^>]*` before `href="` in the
anchor regex: every suffix of `s` reachable by consuming only non-`>`
characters, in scan order (the caller reverses for greedy-first). -/
def nonGtSuffixes : List Char → List (List Char)
  | [] => [[]]
  | c :: cs => if c == '>' then [c :: cs] else (c :: cs) :: nonGtSuffixes cs

/-- One backtracking attempt for `href="([^"]*)"[^>]*>(.*?)</a>` at a
candidate suffix: returns (href capture, text capture, remainder). -/
def tryAnchorCandidate (s : List Char) : Option (List Char × List Char × List Char) :=
  if startsWithListCI s "href=\"".data then
    match splitFirstQuote (s.drop 6) with
    | none => none
    | some (href, afterQuote) =>
      match splitFirstGt afterQuote with
      | none => none
      | some afterOpen =>
        match findCloseSplit ('<' :: '/' :: ('a' :: ['>'])) afterOpen with
        | none => none
        | some (text, rest) => some (href, text, rest)
  else none

/-- Try `<a[^>]*href="([^"]*)"[^>]*>(.*?)<\/a>` (case-insensitive) at the
head: the leading `[^>]*` backtracks from its longest extent, so candidate
`href="` positions are tried right to left. -/
def tryAnchorAt (s : List Char) : Option (List Char × List Char × List Char) :=
  if startsWithListCI s ('<' :: ['a']) then
    firstSome tryAnchorCandidate (nonGtSuffixes (s.drop 2)).reverse
  else none

/-- Global replace of the anchor regex by `[$2]($1)`. -/
def replaceAnchorAux : Nat → List Char → List Char
  | _, [] => []
  | 0, s => s
  | fuel + 1, c :: cs =>
    match tryAnchorAt (c :: cs) with
    | some (href, text, rest) =>
      '[' :: (text ++ (']' :: '(' :: (href ++ (')' :: replaceAnchorAux fuel rest))))
    | none => c :: replaceAnchorAux fuel cs

/-- `html.replace(/<a[^>]*href="([^"]*)"[^>]*>(.*?)<\/a>/gi, '[$2]($1)')`. -/
def replaceAnchors (s : List Char) : List Char :=
  replaceAnchorAux s.length s

/-- Global replace of `/<[^>]*>/g` by the empty string (a `<` with no later
`>` does not match and is kept). -/
def removeTagsAux : Nat → List Char → List Char
  | _, [] => []
  | 0, s => s
  | fuel + 1, c :: cs =>
    if c == '<' then
      match splitFirstGt cs with
      | some rest => removeTagsAux fuel rest
      | none => c :: removeTagsAux fuel cs
    else c :: removeTagsAux fuel cs

/-- `html.replace(/<[^>]*>/g, '')`. -/
def removeTags (s : List Char) : List Char :=
  removeTagsAux s.length s

/-- The suffixes reachable from `s` by the regex piece `\s*\n` (consume
whitespace, then one newline), in front-to-back order of the consumed
newline; the greedy `\s*` wants the reversed order. -/
def wsNlSplits : List Char → List (List Char)
  | [] => []
  | c :: cs =>
    if jsWhitespace c then
      (if c == '\n' then [cs] else []) ++ wsNlSplits cs
    else []

/-- Match `/\n\s*\n\s*\n/` at the head (greedy stars with backtracking),
returning the remainder after the match. -/
def tryTripleNl : List Char → Option (List Char)
  | [] => none
  | c :: cs =>
    if c == '\n' then
      firstSome (fun rest1 => firstSome (fun rest2 => some rest2) (wsNlSplits rest1).reverse)
        (wsNlSplits cs).reverse
    else none

/-- Global replace of `/\n\s*\n\s*\n/g` by `"\n\n"`. -/
def collapseNlAux : Nat → List Char → List Char
  | _, [] => []
  | 0, s => s
  | fuel + 1, c :: cs =>
    match tryTripleNl (c :: cs) with
    | some rest => '\n' :: '\n' :: collapseNlAux fuel rest
    | none => c :: collapseNlAux fuel cs

/-- `html.replace(/\n\s*\n\s*\n/g, '\n\n')`. -/
def collapseNl (s : List Char) : List Char :=
  collapseNlAux s.length s

/-- JS `String.prototype.trim`. -/
def trimChars (s : List Char) : List Char :=
  ((s.dropWhile jsWhitespace).reverse.dropWhile jsWhitespace).reverse

/-- `BrowserManager.htmlToMarkdown`: the chain of replaces in source order —
h1/h2/h3 headings, paragraphs, anchors, strong/b, em/i, code, strip remaining
tags, collapse blank-line runs, trim. -/
def htmlToMarkdown (html : String) : String :=
  String.mk (trimChars (collapseNl (removeTags
    (replaceTagWrap "code" "`" "`"
      (replaceTagWrap "i" "*" "*"
        (replaceTagWrap "em" "*" "*"
          (replaceTagWrap "b" "**" "**"
            (replaceTagWrap "strong" "**" "**"
              (replaceAnchors
                (replaceTagWrap "p" "" "\n\n"
                  (replaceTagWrap "h3" "### " "\n\n"
                    (replaceTagWrap "h2" "## " "\n\n"
                      (replaceTagWrap "h1" "# " "\n\n" html.data)))))))))))))

/-! ## extractContent and screenshot (src/browser/manager.ts) -/

/-- What the page answers to the full-page extraction accessors; for each
accessor, `none` models the underlying call rejecting, and `some s` the
string it produced (with JS `null` folded into `""` exactly as the source's
`|| ''` / `document.body ? … : ''` guards do). -/
structure PageOracle where
  url : String
  bodyTextContent : Option String
  bodyInnerText : Option String
  bodyTextContent2 : Option String
  pageContent : Option String
  docOuterHTML : Option String
  htmlFromBody : Option String
  now : Nat

/-- What the located element answers in the selector branch of
`extractContent`: `none` = the call rejected (propagates to the outer catch),
`some none` = JS `null`, `some (some s)` = the string `s`. -/
structure SelectorOracle where
  found : Bool
  textContent : Option (Option String)
  innerHTML : Option String

/-- `s.trim().length > 0`, the non-emptiness test of the text fallback
chain. -/
def jsTrimNonempty (s : String) : Bool :=
  decide (0 < (trimChars s.data).length)

/-- `BrowserManager.extractTextContent`: body text, then `innerText` via
evaluate, then `textContent` via evaluate — first result with non-blank trim
wins; otherwise `''`. -/
def extractTextContent (o : PageOracle) : String :=
  match o.bodyTextContent with
  | some c =>
    if jsTrimNonempty c then c
    else match o.bodyInnerText with
      | some c2 =>
        if jsTrimNonempty c2 then c2
        else match o.bodyTextContent2 with
          | some c3 => if jsTrimNonempty c3 then c3 else ""
          | none => ""
      | none =>
        match o.bodyTextContent2 with
        | some c3 => if jsTrimNonempty c3 then c3 else ""
        | none => ""
  | none =>
    match o.bodyInnerText with
    | some c2 =>
      if jsTrimNonempty c2 then c2
      else match o.bodyTextContent2 with
        | some c3 => if jsTrimNonempty c3 then c3 else ""
        | none => ""
    | none =>
      match o.bodyTextContent2 with
      | some c3 => if jsTrimNonempty c3 then c3 else ""
      | none => ""

/-- `BrowserManager.extractHtmlContent`: `page.content()`, then the
document's `outerHTML`, then a reconstruction from head/body markup — the
first result longer than 100 characters wins; otherwise the last assigned
content (initially `''`) is returned.  A throwing accessor leaves the
previous assignment in place. -/
def extractHtmlContent (o : PageOracle) : String :=
  let c0 := ""
  let step3 := fun (prev : String) =>
    match o.htmlFromBody with
    | some c3 => if c3.length > 100 then c3 else c3
    | none => prev
  let step2 := fun (prev : String) =>
    match o.docOuterHTML with
    | some c2 => if c2.length > 100 then c2 else step3 c2
    | none => step3 prev
  match o.pageContent with
  | some c1 => if c1.length > 100 then c1 else step2 c1
  | none => step2 c0

/-- `ContentExtractionOptions` from src/types/index.ts.  `removeScripts` and
`removeStyles` are declared and accepted, and the content tool passes them
through (`removeScripts: args.removeScripts !== false`,
`removeStyles: args.removeStyles === true`). -/
structure ContentExtractionOptions where
  format : String
  selector : Option String
  removeScripts : Bool
  removeStyles : Bool
deriving DecidableEq

/-- Metadata of a successful `extractContent` result (the ISO `timestamp`
string is rendered as the numeric clock). -/
structure ContentMetadata where
  length : Nat
  encoding : String
  url : String
  timestamp : Nat
deriving DecidableEq

/-- `ContentResult` from src/types/index.ts. -/
structure ContentResult where
  success : Bool
  content : Option String
  error : Option String
  metadata : Option ContentMetadata
deriving DecidableEq

/-- Successful `extractContent` result shape. -/
def contentSuccess (o : PageOracle) (c : String) : ContentResult :=
  { success := true, content := some c, error := none,
    metadata := some { length := c.length, encoding := "utf-8", url := o.url,
                       timestamp := o.now } }

/-- Full-page branch of `extractContent`: dispatch on the format, with text
as the default; markdown converts the HTML chain's result. -/
def extractContentFullPage (po : PageOracle) (format : String) : ContentResult :=
  match format with
  | "text" => contentSuccess po (extractTextContent po)
  | "html" => contentSuccess po (extractHtmlContent po)
  | "markdown" => contentSuccess po (htmlToMarkdown (extractHtmlContent po))
  | _ => contentSuccess po (extractTextContent po)

/-- `BrowserManager.extractContent`.  Everything — including the selector
validation throw — sits inside the `try`, so every failure surfaces as a soft
`{success:false}` result.  The readiness waits are best-effort and do not
influence the result.  Note the function never reads `removeScripts` or
`removeStyles`. -/
def extractContent (po : PageOracle) (so : SelectorOracle)
    (opts : ContentExtractionOptions) : ContentResult :=
  match opts.selector with
  | some sel =>
    if sel = "" then extractContentFullPage po opts.format
    else
      let sv := validateSelector sel
      if sv.valid = false then
        { success := false, content := none, error := some (sv.error.getD ""),
          metadata := none }
      else
        -- `element.waitFor(...).catch(...)` is swallowed (`so.found` unused)
        match opts.format with
        | "text" =>
          match so.textContent with
          | none => { success := false, content := none,
                      error := some "textContent failed", metadata := none }
          | some t => contentSuccess po (t.getD "")
        | "html" =>
          match so.innerHTML with
          | none => { success := false, content := none,
                      error := some "innerHTML failed", metadata := none }
          | some h => contentSuccess po h
        | _ =>
          match so.textContent with
          | none => { success := false, content := none,
                      error := some "textContent failed", metadata := none }
          | some t => contentSuccess po (t.getD "")
  | none => extractContentFullPage po opts.format

/-- `ScreenshotOptions` as read by `BrowserManager.screenshot` (the
`clip` rectangle uses the manager's numeric fields). -/
structure Clip where
  x : Nat
  y : Nat
  width : Nat
  height : Nat
deriving DecidableEq

/-- The options bundle `screenshot` reads. -/
structure ScreenshotCallOptions where
  selector : Option String
  fullPage : Option Bool
  format : Option String
  quality : Option Nat
  clip : Option Clip
  waitCondition : Option String
  waitTimeout : Option Nat
  additionalDelay : Option Nat
deriving DecidableEq

/-- Metadata of a successful screenshot result. -/
structure ScreenshotMetadata where
  width : Nat
  height : Nat
  format : String
deriving DecidableEq

/-- `ScreenshotResult` from src/types/index.ts. -/
structure ScreenshotResult where
  success : Bool
  data : Option String
  error : Option String
  metadata : Option ScreenshotMetadata
deriving DecidableEq

/-- The capture-and-shape step of `screenshot`: on a rejected capture, the
soft failure; on success, the base64 data plus metadata computed from the
clip / configured viewport defaults. -/
def screenshotCapture (cfg : BrowserConfig) (capture : Option String)
    (opts : ScreenshotCallOptions) : ScreenshotResult :=
  match capture with
  | none => { success := false, data := none, error := some "screenshot failed",
              metadata := none }
  | some b64 =>
    { success := true, data := some b64, error := none,
      metadata := some
        { width := jsOrNum (opts.clip.map Clip.width)
            (jsOrNum (cfg.viewport.map Viewport.width) 1280)
          height := jsOrNum (opts.clip.map Clip.height)
            (jsOrNum (cfg.viewport.map Viewport.height) 720)
          format := jsOrStr opts.format "png" } }

/-- `BrowserManager.screenshot`.  The waits are best-effort; `capture` is the
browser's `element.screenshot(...)` call (`none` = it rejected, `some b64` =
the base64-encoded bytes).  The metadata is computed from the clip and the
configured viewport with JS `||` (`clip?.width || viewport?.width || 1280`,
`clip?.height || viewport?.height || 720`) — never measured from the captured
image. -/
def screenshot (cfg : BrowserConfig) (capture : Option String)
    (opts : ScreenshotCallOptions) : ScreenshotResult :=
  match opts.selector with
  | some sel =>
    if sel = "" then screenshotCapture cfg capture opts
    else
      let sv := validateSelector sel
      if sv.valid = false then
        { success := false, data := none, error := some (sv.error.getD ""),
          metadata := none }
      else screenshotCapture cfg capture opts
  | none => screenshotCapture cfg capture opts

/-! ## Theorems -/

/-- C2: for every parseable URL whose scheme is not `http` or `https` (e.g.
`javascript:`, `ftp:`, `file:`), `validateUrl` rejects, whatever the
configured allow-list and block-list contain: every accepting path passes the
protocol white-list. -/
theorem validateUrl_rejects_non_http_scheme (cfg : SecurityConfig) (u : ParsedUrl)
    (h1 : u.protocol ≠ "http:") (h2 : u.protocol ≠ "https:") :
    (validateUrl cfg (some u)).valid = false := by
  simp only [validateUrl]
  split
  · rfl
  · split
    · rfl
    · split
      · next hc =>
        simp only [Bool.or_eq_true, beq_iff_eq] at hc
        rcases hc with hc | hc
        · exact absurd hc h1
        · exact absurd hc h2
      · rfl

/-- Witness for C2: the default configuration rejects a parsed
`javascript:alert(1)` URL (protocol `javascript:`, empty hostname). -/
theorem validateUrl_rejects_non_http_scheme_witness :
    ("javascript:" : String) ≠ "http:" ∧ ("javascript:" : String) ≠ "https:" ∧
    (validateUrl defaultSecurityConfig
      (some { protocol := "javascript:", hostname := "", origin := "null" })).valid = false :=
  ⟨by decide, by decide,
    validateUrl_rejects_non_http_scheme defaultSecurityConfig
      { protocol := "javascript:", hostname := "", origin := "null" }
      (by decide) (by decide)⟩

/-- Counterexample to C1 as stated: with allow-list `["example.com"]` and an
empty block-list, the parsed URL `ftp://example.com` has a hostname that
contains an allow-listed substring and no blocked substring, yet `validateUrl`
rejects it (the scheme check still applies).  The claimed equivalence fails at
this input. -/
theorem validateUrl_allowlist_counterexample :
    ¬ (((validateUrl
          { allowedDomains := some ["example.com"], blockedDomains := some [],
            maxExecutionTime := none, maxMemoryUsage := none, enableSandbox := none }
          (some { protocol := "ftp:", hostname := "example.com",
                  origin := "ftp://example.com" })).valid = true) ↔
        ((["example.com"].any fun d => jsIncludes "example.com" d) = true ∧
         (([] : List String).all fun b => !jsIncludes "example.com" b) = true)) := by
  decide

/-- C1 (amended): when the allow-list is non-empty, `validateUrl` accepts a
parseable URL iff its hostname contains at least one allow-listed substring,
contains no blocked-domain substring, and — additionally to the claim as
stated — the URL's scheme is `http` or `https`. -/
theorem validateUrl_allowlist_iff (cfg : SecurityConfig) (u : ParsedUrl)
    (l : List String) (hl : cfg.allowedDomains = some l) (hne : l ≠ []) :
    (validateUrl cfg (some u)).valid = true ↔
      ((l.any fun d => jsIncludes u.hostname d) = true ∧
       ((cfg.blockedDomains.getD []).all fun b => !jsIncludes u.hostname b) = true ∧
       (u.protocol = "http:" ∨ u.protocol = "https:")) := by
  have hgd : cfg.allowedDomains.getD [] = l := by rw [hl]; rfl
  simp only [validateUrl, hgd]
  by_cases hb : ((cfg.blockedDomains.getD []).any fun b => jsIncludes u.hostname b) = true
  · rw [if_pos hb]
    rw [List.any_eq_true] at hb
    obtain ⟨b, hbmem, hbinc⟩ := hb
    constructor
    · intro h; simp at h
    · rintro ⟨-, hall, -⟩
      rw [List.all_eq_true] at hall
      have hfb := hall b hbmem
      rw [hbinc] at hfb
      simp at hfb
  · rw [if_neg hb]
    have hall : ((cfg.blockedDomains.getD []).all fun b => !jsIncludes u.hostname b) = true := by
      rw [List.all_eq_true]
      intro b hbmem
      rw [List.any_eq_true] at hb
      push_neg at hb
      have hnb := hb b hbmem
      have hfalse : jsIncludes u.hostname b = false := by
        cases hcv : jsIncludes u.hostname b
        · rfl
        · exact absurd hcv hnb
      simp [hfalse]
    by_cases ha : (l.any fun d => jsIncludes u.hostname d) = true
    · have hcond2 : ¬ ((decide (l ≠ []) && !(l.any fun b => jsIncludes u.hostname b)) = true) := by
        simp [ha]
      rw [if_neg hcond2]
      by_cases hp : (u.protocol == "http:" || u.protocol == "https:") = true
      · rw [if_pos hp]
        simp only [Bool.or_eq_true, beq_iff_eq] at hp
        simp [ha, hall, hp]
      · rw [if_neg hp]
        simp only [Bool.or_eq_true, beq_iff_eq, not_or] at hp
        constructor
        · intro h; simp at h
        · rintro ⟨-, -, hpr⟩
          rcases hpr with h | h
          · exact absurd h hp.1
          · exact absurd h hp.2
    · have hanyf : (l.any fun b => jsIncludes u.hostname b) = false := by
        cases hc : (l.any fun b => jsIncludes u.hostname b)
        · rfl
        · exact absurd hc ha
      have hcond2 : (decide (l ≠ []) && !(l.any fun b => jsIncludes u.hostname b)) = true := by
        simp [hanyf, hne]
      rw [if_pos hcond2]
      constructor
      · intro h; simp at h
      · rintro ⟨hany, -, -⟩; exact absurd hany ha

/-- Witness for C1 (amended): allow-list `["example.com"]`, default block-list
shape absent; `https://www.example.com` is accepted. -/
theorem validateUrl_allowlist_iff_witness :
    (validateUrl
      { allowedDomains := some ["example.com"], blockedDomains := none,
        maxExecutionTime := none, maxMemoryUsage := none, enableSandbox := none }
      (some { protocol := "https:", hostname := "www.example.com",
              origin := "https://www.example.com" })).valid = true := by
  have h := validateUrl_allowlist_iff
    { allowedDomains := some ["example.com"], blockedDomains := none,
      maxExecutionTime := none, maxMemoryUsage := none, enableSandbox := none }
    { protocol := "https:", hostname := "www.example.com",
      origin := "https://www.example.com" }
    ["example.com"] rfl (by decide)
  exact h.mpr ⟨by decide, by decide, Or.inr rfl⟩

/-- Counterexample to C5 as stated: the empty script contains no denylisted
pattern and is within the 10000-character cap, yet `validateScript` rejects it
(Joi's `required()` string schema disallows the empty string). -/
theorem validateScript_empty_counterexample :
    ("".length ≤ 10000 ∧ containsDangerousScriptPattern "" = false) ∧
    (validateScript "").valid = false := by
  decide

/-- C5 (amended): `validateScript` rejects every script containing a
denylisted pattern, and accepts exactly the **non-empty** scripts that contain
no denylisted pattern and are within the 10000-character cap. -/
theorem validateScript_accepts_iff (s : String) :
    (validateScript s).valid = true ↔
      (s.length ≠ 0 ∧ s.length ≤ 10000 ∧ containsDangerousScriptPattern s = false) := by
  unfold validateScript
  by_cases h0 : s.length = 0
  · simp [h0]
  · by_cases h1 : s.length > 10000
    · rw [if_neg h0, if_pos h1]
      constructor
      · intro h; simp at h
      · rintro ⟨-, hle, -⟩; omega
    · by_cases h2 : containsDangerousScriptPattern s = true
      · rw [if_neg h0, if_neg h1, if_pos h2]
        constructor
        · intro h; simp at h
        · rintro ⟨-, -, hcp⟩
          rw [h2] at hcp
          exact absurd hcp (by simp)
      · rw [if_neg h0, if_neg h1, if_neg h2]
        simp only [Bool.not_eq_true] at h2
        exact ⟨fun _ => ⟨h0, by omega, h2⟩, fun _ => rfl⟩

theorem mapGet_mapSet_self (m : List (String × Session)) (k : String) (v : Session) :
    mapGet (mapSet m k v) k = some v := by
  induction m with
  | nil => simp [mapSet, mapGet]
  | cons p rest ih =>
    obtain ⟨k', v'⟩ := p
    by_cases h : k' = k
    · simp [mapSet, h, mapGet]
    · simp [mapSet, h, mapGet, ih]

theorem mapGet_mapSet_ne (m : List (String × Session)) (k k' : String) (v : Session)
    (h : k' ≠ k) : mapGet (mapSet m k v) k' = mapGet m k' := by
  induction m with
  | nil =>
    simp only [mapSet, mapGet]
    rw [if_neg (fun e => h e.symm)]
  | cons p rest ih =>
    obtain ⟨k1, v1⟩ := p
    simp only [mapSet]
    by_cases h1 : k1 = k
    · subst h1
      simp only [if_pos rfl, mapGet]
      rw [if_neg (fun e => h e.symm), if_neg (fun e => h e.symm)]
    · simp only [if_neg h1, mapGet]
      by_cases h2 : k1 = k'
      · simp [h2]
      · simp [h2, ih]

theorem mem_handleList_of_get :
    ∀ (m : List (String × Session)) {k : String} {v : Session},
      mapGet m k = some v → v.context ∈ handleList m ∧ v.page ∈ handleList m := by
  intro m
  induction m with
  | nil => intro k v h; simp [mapGet] at h
  | cons p rest ih =>
    intro k v h
    obtain ⟨k1, v1⟩ := p
    simp only [mapGet] at h
    simp only [handleList]
    by_cases h1 : k1 = k
    · rw [if_pos h1] at h
      obtain rfl : v1 = v := by injection h
      constructor
      · simp
      · simp
    · rw [if_neg h1] at h
      obtain ⟨hc, hp⟩ := ih h
      constructor
      · simp [hc]
      · simp [hp]

theorem handles_distinct_of_get :
    ∀ (m : List (String × Session)) {k1 k2 : String} {v1 v2 : Session},
      (handleList m).Nodup → mapGet m k1 = some v1 → mapGet m k2 = some v2 →
      k1 ≠ k2 → v1.context ≠ v2.context ∧ v1.page ≠ v2.page := by
  intro m
  induction m with
  | nil => intro k1 k2 v1 v2 _ h1 _ _; simp [mapGet] at h1
  | cons p rest ih =>
    intro k1 k2 v1 v2 hnd h1 h2 hne
    obtain ⟨k, v⟩ := p
    simp only [mapGet] at h1 h2
    simp only [handleList, List.nodup_cons] at hnd
    obtain ⟨hc_nin, hp_nin, hndrest⟩ := hnd
    by_cases e1 : k = k1
    · rw [if_pos e1] at h1
      obtain rfl : v = v1 := by injection h1
      have e2 : ¬ (k = k2) := by rw [e1]; exact hne
      rw [if_neg e2] at h2
      obtain ⟨hc2, hp2⟩ := mem_handleList_of_get rest h2
      constructor
      · intro he; exact hc_nin (by rw [he]; exact List.mem_cons_of_mem _ hc2)
      · intro he; exact hp_nin (by rw [he]; exact hp2)
    · rw [if_neg e1] at h1
      by_cases e2 : k = k2
      · rw [if_pos e2] at h2
        obtain rfl : v = v2 := by injection h2
        obtain ⟨hc1, hp1⟩ := mem_handleList_of_get rest h1
        constructor
        · intro he; exact hc_nin (by rw [← he]; exact List.mem_cons_of_mem _ hc1)
        · intro he; exact hp_nin (by rw [← he]; exact hp1)
      · rw [if_neg e2] at h2
        exact ih hndrest h1 h2 hne

theorem handleList_mapSet_touch :
    ∀ (m : List (String × Session)) {k : String} {v : Session} (t : Nat),
      mapGet m k = some v →
      handleList (mapSet m k { v with lastActivity := t }) = handleList m := by
  intro m
  induction m with
  | nil => intro k v t h; simp [mapGet] at h
  | cons p rest ih =>
    intro k v t h
    obtain ⟨k1, v1⟩ := p
    simp only [mapGet] at h
    by_cases h1 : k1 = k
    · rw [if_pos h1] at h
      obtain rfl : v1 = v := by injection h
      simp [mapSet, h1, handleList]
    · rw [if_neg h1] at h
      simp [mapSet, h1, handleList, ih t h]

theorem mapSet_fst_of_get :
    ∀ (m : List (String × Session)) {k : String} {v0 : Session} (v : Session),
      mapGet m k = some v0 → (mapSet m k v).map Prod.fst = m.map Prod.fst := by
  intro m
  induction m with
  | nil => intro k v0 v h; simp [mapGet] at h
  | cons p rest ih =>
    intro k v0 v h
    obtain ⟨k1, v1⟩ := p
    simp only [mapGet] at h
    by_cases h1 : k1 = k
    · simp [mapSet, h1]
    · rw [if_neg h1] at h
      simp [mapSet, h1, ih v h]

theorem initBrowser_sessions (st : ManagerState) :
    (initBrowser st).sessions = st.sessions := by
  unfold initBrowser; split <;> rfl

theorem initBrowser_now (st : ManagerState) : (initBrowser st).now = st.now := by
  unfold initBrowser; split <;> rfl

theorem initBrowser_nextHandle_ge (st : ManagerState) :
    st.nextHandle ≤ (initBrowser st).nextHandle := by
  unfold initBrowser; split
  · exact Nat.le_succ _
  · exact Nat.le_refl _

theorem getSession_known (gen : ManagerState → String) (st : ManagerState)
    (id : String) (sess0 : Session) (hid : id ≠ "")
    (hin : mapGet st.sessions id = some sess0) :
    getSession gen st (some id) =
      (some (touchedSession st sess0), touchState st id sess0) := by
  simp only [getSession]
  rw [if_neg hid, hin]
  rfl

theorem getSession_unknown (gen : ManagerState → String) (st : ManagerState)
    (id : String) (hid : id ≠ "") (hout : mapGet st.sessions id = none) :
    getSession gen st (some id) =
      (some (freshSession (initBrowser st) id), createState st id) := by
  simp only [getSession, createSession, resolveSessionId]
  rw [if_neg hid, hout, if_neg hid, mapGet_mapSet_self]
  rfl

/-- C7: `getSession` with the same already-known identifier twice returns the
same underlying session (identical context and page handle identity, in fact
the identical record) and creates no new session (the key list of the map is
unchanged); with two different identifiers it returns two sessions whose
contexts and pages are distinct handles. -/
theorem getSession_same_and_distinct (gen : ManagerState → String) (st : ManagerState) :
    (∀ id sess0, id ≠ "" → mapGet st.sessions id = some sess0 →
      ∃ s1 s2, (getSession gen st (some id)).1 = some s1 ∧
        (getSession gen (getSession gen st (some id)).2 (some id)).1 = some s2 ∧
        s2 = s1 ∧ s1.context = sess0.context ∧ s1.page = sess0.page ∧
        ((getSession gen (getSession gen st (some id)).2 (some id)).2).sessions.map Prod.fst
          = st.sessions.map Prod.fst) ∧
    (∀ id1 id2, StateWF st → id1 ≠ id2 → id1 ≠ "" → id2 ≠ "" →
      ∃ s1 s2, (getSession gen st (some id1)).1 = some s1 ∧
        (getSession gen (getSession gen st (some id1)).2 (some id2)).1 = some s2 ∧
        s1.context ≠ s2.context ∧ s1.page ≠ s2.page) := by
  constructor
  · intro id sess0 hid hin
    have h1 := getSession_known gen st id sess0 hid hin
    have hin2 : mapGet (touchState st id sess0).sessions id = some (touchedSession st sess0) :=
      mapGet_mapSet_self _ _ _
    have h2 := getSession_known gen (touchState st id sess0) id (touchedSession st sess0) hid hin2
    refine ⟨touchedSession st sess0,
            touchedSession (touchState st id sess0) (touchedSession st sess0),
            ?_, ?_, ?_, rfl, rfl, ?_⟩
    · rw [h1]
    · rw [h1, h2]
    · rfl
    · rw [h1, h2]
      have e1 : ((touchState (touchState st id sess0) id (touchedSession st sess0)).sessions).map Prod.fst
          = ((touchState st id sess0).sessions).map Prod.fst :=
        mapSet_fst_of_get _ _ hin2
      have e2 : ((touchState st id sess0).sessions).map Prod.fst = st.sessions.map Prod.fst :=
        mapSet_fst_of_get _ _ hin
      exact e1.trans e2
  · intro id1 id2 hwf h12 h1ne h2ne
    obtain ⟨hbound, hnodup⟩ := hwf
    cases hc1 : mapGet st.sessions id1 with
    | some v1 =>
      have h1 := getSession_known gen st id1 v1 h1ne hc1
      have hget2 : mapGet (touchState st id1 v1).sessions id2 = mapGet st.sessions id2 :=
        mapGet_mapSet_ne _ id1 id2 _ (Ne.symm h12)
      cases hc2 : mapGet st.sessions id2 with
      | some v2 =>
        have h2 := getSession_known gen (touchState st id1 v1) id2 v2 h2ne (hget2.trans hc2)
        have hd := handles_distinct_of_get st.sessions hnodup hc1 hc2 h12
        refine ⟨touchedSession st v1, touchedSession (touchState st id1 v1) v2, ?_, ?_, ?_, ?_⟩
        · rw [h1]
        · rw [h1, h2]
        · exact hd.1
        · exact hd.2
      | none =>
        have h2 := getSession_unknown gen (touchState st id1 v1) id2 h2ne (hget2.trans hc2)
        have hmem := mem_handleList_of_get st.sessions hc1
        have hbc := hbound _ hmem.1
        have hbp := hbound _ hmem.2
        have hle : (touchState st id1 v1).nextHandle ≤ (initBrowser (touchState st id1 v1)).nextHandle :=
          initBrowser_nextHandle_ge _
        have hnh : (touchState st id1 v1).nextHandle = st.nextHandle := rfl
        refine ⟨touchedSession st v1, freshSession (initBrowser (touchState st id1 v1)) id2, ?_, ?_, ?_, ?_⟩
        · rw [h1]
        · rw [h1, h2]
        · show v1.context ≠ (initBrowser (touchState st id1 v1)).nextHandle
          omega
        · show v1.page ≠ (initBrowser (touchState st id1 v1)).nextHandle + 1
          omega
    | none =>
      have h1 := getSession_unknown gen st id1 h1ne hc1
      have hget2 : mapGet (createState st id1).sessions id2 = mapGet st.sessions id2 := by
        have e1 : mapGet (createState st id1).sessions id2
            = mapGet (initBrowser st).sessions id2 :=
          mapGet_mapSet_ne _ id1 id2 _ (Ne.symm h12)
        rw [e1, initBrowser_sessions]
      cases hc2 : mapGet st.sessions id2 with
      | some v2 =>
        have h2 := getSession_known gen (createState st id1) id2 v2 h2ne (hget2.trans hc2)
        have hmem := mem_handleList_of_get st.sessions hc2
        have hbc := hbound _ hmem.1
        have hbp := hbound _ hmem.2
        have hle : st.nextHandle ≤ (initBrowser st).nextHandle := initBrowser_nextHandle_ge st
        refine ⟨freshSession (initBrowser st) id1, touchedSession (createState st id1) v2, ?_, ?_, ?_, ?_⟩
        · rw [h1]
        · rw [h1, h2]
        · show (initBrowser st).nextHandle ≠ v2.context
          omega
        · show (initBrowser st).nextHandle + 1 ≠ v2.page
          omega
      | none =>
        have h2 := getSession_unknown gen (createState st id1) id2 h2ne (hget2.trans hc2)
        have hge : (createState st id1).nextHandle ≤ (initBrowser (createState st id1)).nextHandle :=
          initBrowser_nextHandle_ge _
        have he : (createState st id1).nextHandle = (initBrowser st).nextHandle + 2 := rfl
        refine ⟨freshSession (initBrowser st) id1,
                freshSession (initBrowser (createState st id1)) id2, ?_, ?_, ?_, ?_⟩
        · rw [h1]
        · rw [h1, h2]
        · show (initBrowser st).nextHandle ≠ (initBrowser (createState st id1)).nextHandle
          omega
        · show (initBrowser st).nextHandle + 1 ≠ (initBrowser (createState st id1)).nextHandle + 1
          omega

/-- Witness for C7 at a concrete two-session store: the same-id part at
`"a"` and the distinct-ids part at `"a"`/`"b"`. -/
theorem getSession_same_and_distinct_witness :
    (∃ s1 s2,
      (getSession (fun _ => "g")
        { browser := some 0,
          sessions := [("a", { id := "a", context := 1, page := 2, createdAt := 0,
                               lastActivity := 0,
                               config := ⟨none, none, none, none, []⟩ }),
                       ("b", { id := "b", context := 3, page := 4, createdAt := 0,
                               lastActivity := 0,
                               config := ⟨none, none, none, none, []⟩ })],
          config := ⟨none, none, none, none, []⟩, nextHandle := 5, now := 7 }
        (some "a")).1 = some s1 ∧
      (getSession (fun _ => "g")
        (getSession (fun _ => "g")
          { browser := some 0,
            sessions := [("a", { id := "a", context := 1, page := 2, createdAt := 0,
                                 lastActivity := 0,
                                 config := ⟨none, none, none, none, []⟩ }),
                         ("b", { id := "b", context := 3, page := 4, createdAt := 0,
                                 lastActivity := 0,
                                 config := ⟨none, none, none, none, []⟩ })],
            config := ⟨none, none, none, none, []⟩, nextHandle := 5, now := 7 }
          (some "a")).2 (some "a")).1 = some s2 ∧ s2 = s1) ∧
    (∃ s1 s2,
      (getSession (fun _ => "g")
        { browser := some 0,
          sessions := [("a", { id := "a", context := 1, page := 2, createdAt := 0,
                               lastActivity := 0,
                               config := ⟨none, none, none, none, []⟩ }),
                       ("b", { id := "b", context := 3, page := 4, createdAt := 0,
                               lastActivity := 0,
                               config := ⟨none, none, none, none, []⟩ })],
          config := ⟨none, none, none, none, []⟩, nextHandle := 5, now := 7 }
        (some "a")).1 = some s1 ∧
      (getSession (fun _ => "g")
        (getSession (fun _ => "g")
          { browser := some 0,
            sessions := [("a", { id := "a", context := 1, page := 2, createdAt := 0,
                                 lastActivity := 0,
                                 config := ⟨none, none, none, none, []⟩ }),
                         ("b", { id := "b", context := 3, page := 4, createdAt := 0,
                                 lastActivity := 0,
                                 config := ⟨none, none, none, none, []⟩ })],
            config := ⟨none, none, none, none, []⟩, nextHandle := 5, now := 7 }
          (some "a")).2 (some "b")).1 = some s2 ∧
      s1.context ≠ s2.context ∧ s1.page ≠ s2.page) := by
  constructor
  · obtain ⟨s1, s2, e1, e2, e3, -, -, -⟩ :=
      (getSession_same_and_distinct (fun _ => "g")
        { browser := some 0,
          sessions := [("a", { id := "a", context := 1, page := 2, createdAt := 0,
                               lastActivity := 0,
                               config := ⟨none, none, none, none, []⟩ }),
                       ("b", { id := "b", context := 3, page := 4, createdAt := 0,
                               lastActivity := 0,
                               config := ⟨none, none, none, none, []⟩ })],
          config := ⟨none, none, none, none, []⟩, nextHandle := 5, now := 7 }).1 "a"
        { id := "a", context := 1, page := 2, createdAt := 0, lastActivity := 0,
          config := ⟨none, none, none, none, []⟩ }
        (by decide) (by decide)
    exact ⟨s1, s2, e1, e2, e3⟩
  · obtain ⟨s1, s2, e1, e2, e3, e4⟩ :=
      (getSession_same_and_distinct (fun _ => "g")
        { browser := some 0,
          sessions := [("a", { id := "a", context := 1, page := 2, createdAt := 0,
                               lastActivity := 0,
                               config := ⟨none, none, none, none, []⟩ }),
                       ("b", { id := "b", context := 3, page := 4, createdAt := 0,
                               lastActivity := 0,
                               config := ⟨none, none, none, none, []⟩ })],
          config := ⟨none, none, none, none, []⟩, nextHandle := 5, now := 7 }).2 "a" "b"
        ⟨by decide, by decide⟩ (by decide) (by decide) (by decide)
    exact ⟨s1, s2, e1, e2, e3, e4⟩

theorem closeAllContexts_all_ok (fail : Nat → Bool) :
    ∀ l : List (String × Session), (∀ p ∈ l, fail p.2.context = false) →
      closeAllContexts fail l = (l.map fun p => p.2.context, none) := by
  intro l
  induction l with
  | nil => intro _; rfl
  | cons p rest ih =>
    intro h
    obtain ⟨k, v⟩ := p
    have hp : fail v.context = false := h (k, v) (List.mem_cons_self _ _)
    simp only [closeAllContexts, hp, Bool.false_eq_true, if_false,
      ih (fun q hq => h q (List.mem_cons_of_mem _ hq)), List.map_cons]

theorem closeAllContexts_first_failure (fail : Nat → Bool) :
    ∀ (pre : List (String × Session)) (p : String × Session) (post : List (String × Session)),
      (∀ q ∈ pre, fail q.2.context = false) → fail p.2.context = true →
      closeAllContexts fail (pre ++ p :: post) =
        (pre.map fun q => q.2.context, some p.2.context) := by
  intro pre
  induction pre with
  | nil =>
    intro p post _ hp
    obtain ⟨k, v⟩ := p
    simp only [List.nil_append, closeAllContexts, hp, if_true, List.map_nil]
  | cons q rest ih =>
    intro p post hpre hp
    obtain ⟨k, v⟩ := q
    have hq : fail v.context = false := hpre (k, v) (List.mem_cons_self _ _)
    simp only [List.cons_append, closeAllContexts, hq, Bool.false_eq_true, if_false,
      List.append_eq]
    rw [ih p post (fun r hr => hpre r (List.mem_cons_of_mem _ hr)) hp]
    rfl

/-- Counterexample to C4 as stated: two sessions (contexts 1 and 3); closing
context 1 rejects.  `cleanup` then closes nothing further — context 3 is never
closed — and the session map is left with both sessions, not empty. -/
theorem cleanup_abort_counterexample :
    (cleanup (fun c => c == 1) false
      { browser := some 0,
        sessions := [("a", { id := "a", context := 1, page := 2, createdAt := 0,
                             lastActivity := 0, config := ⟨none, none, none, none, []⟩ }),
                     ("b", { id := "b", context := 3, page := 4, createdAt := 0,
                             lastActivity := 0, config := ⟨none, none, none, none, []⟩ })],
        config := ⟨none, none, none, none, []⟩, nextHandle := 5, now := 0 }).1 = [] ∧
    ((cleanup (fun c => c == 1) false
      { browser := some 0,
        sessions := [("a", { id := "a", context := 1, page := 2, createdAt := 0,
                             lastActivity := 0, config := ⟨none, none, none, none, []⟩ }),
                     ("b", { id := "b", context := 3, page := 4, createdAt := 0,
                             lastActivity := 0, config := ⟨none, none, none, none, []⟩ })],
        config := ⟨none, none, none, none, []⟩, nextHandle := 5, now := 0 }).2.2.sessions.length = 2) := by
  decide

/-- C4 (amended): `cleanup` closes the session contexts in map order.  When no
individual close fails, every tracked context is closed and the session map is
left empty (whether or not the final browser close fails).  But when some
session's close fails, only the contexts before it have been closed: the
remaining closes, the browser close and the map clear are skipped, the error
propagates out of `cleanup`, and the session map is left unchanged (in
particular non-empty). -/
theorem cleanup_best_effort (fail : Nat → Bool) (bfail : Bool) (st : ManagerState) :
    ((∀ p ∈ st.sessions, fail p.2.context = false) →
      (cleanup fail bfail st).1 = (st.sessions.map fun p => p.2.context) ∧
      (cleanup fail bfail st).2.2.sessions = []) ∧
    (∀ pre p post, st.sessions = pre ++ p :: post →
      (∀ q ∈ pre, fail q.2.context = false) → fail p.2.context = true →
      (cleanup fail bfail st).1 = (pre.map fun q => q.2.context) ∧
      (cleanup fail bfail st).2.1 = some ("context close failed: " ++ toString p.2.context) ∧
      (cleanup fail bfail st).2.2 = st) := by
  constructor
  · intro hok
    simp only [cleanup, closeAllContexts_all_ok fail st.sessions hok]
    cases hbr : st.browser with
    | none => exact ⟨rfl, rfl⟩
    | some b =>
      cases bfail
      · exact ⟨rfl, rfl⟩
      · exact ⟨rfl, rfl⟩
  · intro pre p post hsplit hpre hp
    simp only [cleanup, hsplit, closeAllContexts_first_failure fail pre p post hpre hp]
    exact ⟨trivial, trivial, trivial⟩

/-- Witness for C4 (amended): on a two-session store, `cleanup` with no
failures empties the map; with the first context's close failing, the error
propagates and the map keeps both sessions. -/
theorem cleanup_best_effort_witness :
    ((cleanup (fun _ => false) false
      { browser := some 0,
        sessions := [("a", { id := "a", context := 1, page := 2, createdAt := 0,
                             lastActivity := 0, config := ⟨none, none, none, none, []⟩ }),
                     ("b", { id := "b", context := 3, page := 4, createdAt := 0,
                             lastActivity := 0, config := ⟨none, none, none, none, []⟩ })],
        config := ⟨none, none, none, none, []⟩, nextHandle := 5, now := 0 }).1 = [1, 3] ∧
     (cleanup (fun _ => false) false
      { browser := some 0,
        sessions := [("a", { id := "a", context := 1, page := 2, createdAt := 0,
                             lastActivity := 0, config := ⟨none, none, none, none, []⟩ }),
                     ("b", { id := "b", context := 3, page := 4, createdAt := 0,
                             lastActivity := 0, config := ⟨none, none, none, none, []⟩ })],
        config := ⟨none, none, none, none, []⟩, nextHandle := 5, now := 0 }).2.2.sessions = []) ∧
    (cleanup (fun c => c == 1) false
      { browser := some 0,
        sessions := [("a", { id := "a", context := 1, page := 2, createdAt := 0,
                             lastActivity := 0, config := ⟨none, none, none, none, []⟩ }),
                     ("b", { id := "b", context := 3, page := 4, createdAt := 0,
                             lastActivity := 0, config := ⟨none, none, none, none, []⟩ })],
        config := ⟨none, none, none, none, []⟩, nextHandle := 5, now := 0 }).2.1 =
      some ("context close failed: " ++ toString 1) := by
  refine ⟨?_, ?_⟩
  · exact (cleanup_best_effort (fun _ => false) false
      { browser := some 0,
        sessions := [("a", { id := "a", context := 1, page := 2, createdAt := 0,
                             lastActivity := 0, config := ⟨none, none, none, none, []⟩ }),
                     ("b", { id := "b", context := 3, page := 4, createdAt := 0,
                             lastActivity := 0, config := ⟨none, none, none, none, []⟩ })],
        config := ⟨none, none, none, none, []⟩, nextHandle := 5, now := 0 }).1 (by decide)
  · exact ((cleanup_best_effort (fun c => c == 1) false
      { browser := some 0,
        sessions := [("a", { id := "a", context := 1, page := 2, createdAt := 0,
                             lastActivity := 0, config := ⟨none, none, none, none, []⟩ }),
                     ("b", { id := "b", context := 3, page := 4, createdAt := 0,
                             lastActivity := 0, config := ⟨none, none, none, none, []⟩ })],
        config := ⟨none, none, none, none, []⟩, nextHandle := 5, now := 0 }).2 []
      ("a", { id := "a", context := 1, page := 2, createdAt := 0,
              lastActivity := 0, config := ⟨none, none, none, none, []⟩ })
      [("b", { id := "b", context := 3, page := 4, createdAt := 0,
               lastActivity := 0, config := ⟨none, none, none, none, []⟩ })]
      rfl (by decide) (by decide)).2.1

/-- Counterexample to C6 as stated: `https://shop.example.com/products/item1`
passes validation under the default security configuration, yet `navigate`
issues TWO `page.goto` calls, the first targeting the origin
`https://shop.example.com` — not the requested URL — before the requested
navigation. -/
theorem navigate_products_detour_counterexample :
    navigate defaultSecurityConfig ⟨none, none, none, none, []⟩
      (fun s => if s = "https://shop.example.com/products/item1"
        then some ⟨"https:", "shop.example.com", "https://shop.example.com"⟩ else none)
      (fun _ => false)
      "https://shop.example.com/products/item1" ⟨none, none⟩ =
    Except.ok ([{ url := "https://shop.example.com", waitUntil := "domcontentloaded", timeout := 30000 },
                { url := "https://shop.example.com/products/item1",
                  waitUntil := "domcontentloaded", timeout := 30000 }], true) := by
  rfl

/-- C6 (amended): for every URL accepted by validation, `navigate` issues
exactly one goto targeting the requested URL, with the requested wait
condition (default `domcontentloaded`) and requested timeout (default: the
configured timeout, else 30000ms), and no navigation precedes it — EXCEPT
when the URL contains `/products/` and does not end with `/`, in which case
exactly one navigation to the URL's origin (`domcontentloaded`, same timeout)
is issued before it (assuming that preliminary goto does not throw; if it
throws, the target navigation is never issued). -/
theorem navigate_one_target_call (sec : SecurityConfig) (cfg : BrowserConfig)
    (parse : String → Option ParsedUrl) (gotoFails : NavigateCall → Bool)
    (url : String) (opts : NavigationOptions) (u : ParsedUrl)
    (hparse : parse url = some u)
    (hvalid : (validateUrl sec (some u)).valid = true)
    (hpre : (jsIncludes url "/products/" && !(jsEndsWith url "/")) = true →
      gotoFails { url := u.origin, waitUntil := "domcontentloaded",
                  timeout := jsOrNum opts.timeout (jsOrNum cfg.timeout 30000) } = false) :
    ∃ ok, navigate sec cfg parse gotoFails url opts =
      Except.ok
        ((if (jsIncludes url "/products/" && !(jsEndsWith url "/")) = true
          then [{ url := u.origin, waitUntil := "domcontentloaded",
                  timeout := jsOrNum opts.timeout (jsOrNum cfg.timeout 30000) }]
          else []) ++
         [{ url := url, waitUntil := jsOrStr opts.waitUntil "domcontentloaded",
            timeout := jsOrNum opts.timeout (jsOrNum cfg.timeout 30000) }], ok) := by
  unfold navigate
  rw [hparse]
  simp only [hvalid, Bool.true_eq_false, if_false]
  by_cases hdet : (jsIncludes url "/products/" && !(jsEndsWith url "/")) = true
  · rw [if_pos hdet, if_pos hdet]
    rw [hpre hdet]
    simp only [Bool.false_eq_true, if_false, List.cons_append, List.nil_append]
    by_cases hft : gotoFails ⟨url, jsOrStr opts.waitUntil "domcontentloaded", jsOrNum opts.timeout (jsOrNum cfg.timeout 30000)⟩ = true
    · rw [if_pos hft]
      exact ⟨false, rfl⟩
    · rw [if_neg hft]
      exact ⟨true, rfl⟩
  · rw [if_neg hdet, if_neg hdet]
    simp only [List.nil_append]
    by_cases hft : gotoFails ⟨url, jsOrStr opts.waitUntil "domcontentloaded", jsOrNum opts.timeout (jsOrNum cfg.timeout 30000)⟩ = true
    · rw [if_pos hft]
      exact ⟨false, rfl⟩
    · rw [if_neg hft]
      exact ⟨true, rfl⟩

/-- Witness for C6 (amended): a plain URL (no `/products/`) yields exactly the
single requested goto. -/
theorem navigate_one_target_call_witness :
    ∃ ok, navigate defaultSecurityConfig ⟨none, none, none, none, []⟩
      (fun s => if s = "https://example.com/page"
        then some ⟨"https:", "example.com", "https://example.com"⟩ else none)
      (fun _ => false) "https://example.com/page" ⟨some "load", some 1000⟩ =
      Except.ok
        ((if (jsIncludes "https://example.com/page" "/products/" &&
              !(jsEndsWith "https://example.com/page" "/")) = true
          then [{ url := "https://example.com", waitUntil := "domcontentloaded",
                  timeout := jsOrNum (some 1000) (jsOrNum none 30000) }]
          else []) ++
         [{ url := "https://example.com/page", waitUntil := jsOrStr (some "load") "domcontentloaded",
            timeout := jsOrNum (some 1000) (jsOrNum none 30000) }], ok) :=
  navigate_one_target_call defaultSecurityConfig ⟨none, none, none, none, []⟩
    (fun s => if s = "https://example.com/page"
      then some ⟨"https:", "example.com", "https://example.com"⟩ else none)
    (fun _ => false) "https://example.com/page" ⟨some "load", some 1000⟩
    ⟨"https:", "example.com", "https://example.com"⟩
    (by decide) (by decide) (by decide)

theorem interactElement_selector_throw (o : ElementOracle)
    (opts : ElementInteractionOptions)
    (hsel : (validateSelector opts.selector).valid = false) :
    interactElement o opts = Except.error ((validateSelector opts.selector).error.getD "") := by
  simp only [interactElement]
  rw [if_pos hsel]

theorem interactElement_unsupported_action (o : ElementOracle)
    (opts : ElementInteractionOptions)
    (hsel : (validateSelector opts.selector).valid = true) (hwait : o.waitForOk = true)
    (hmem : opts.action ∉ (["click", "type", "select", "hover", "focus", "clear"] : List String)) :
    interactElement o opts =
      Except.ok (["locator", "waitFor"],
        interactionFailure ("Unsupported action: " ++ opts.action)) := by
  have hsel' : ¬ ((validateSelector opts.selector).valid = false) := by simp [hsel]
  have hwait' : ¬ (o.waitForOk = false) := by simp [hwait]
  simp only [interactElement]
  rw [if_neg hsel', if_neg hwait']
  split
  · next h => exact absurd (by rw [h]; decide) hmem
  · next h => exact absurd (by rw [h]; decide) hmem
  · next h => exact absurd (by rw [h]; decide) hmem
  · next h => exact absurd (by rw [h]; decide) hmem
  · next h => exact absurd (by rw [h]; decide) hmem
  · next h => exact absurd (by rw [h]; decide) hmem
  · rfl

theorem interactElement_type_overlong_value (o : ElementOracle)
    (opts : ElementInteractionOptions) (v : String)
    (hsel : (validateSelector opts.selector).valid = true) (hwait : o.waitForOk = true)
    (hact : opts.action = "type") (hval : opts.value = some v) (hvne : v ≠ "")
    (htv : (validateInputText v).valid = false) :
    interactElement o opts =
      Except.ok (["locator", "waitFor"],
        interactionFailure ((validateInputText v).error.getD "")) := by
  have hsel' : ¬ ((validateSelector opts.selector).valid = false) := by simp [hsel]
  have hwait' : ¬ (o.waitForOk = false) := by simp [hwait]
  simp only [interactElement]
  rw [if_neg hsel', if_neg hwait', hact, hval]
  simp only []
  rw [if_neg hvne, if_pos htv]

theorem replicateString_length (n : Nat) (c : Char) :
    (String.mk (List.replicate n c)).length = n := by
  show (List.replicate n c).length = n
  exact List.length_replicate n c

theorem validateInputText_replicate_10001 :
    (validateInputText (String.mk (List.replicate 10001 'a'))).valid = false := by
  unfold validateInputText
  rw [if_pos (by rw [replicateString_length]; omega)]

theorem replicateString_10001_ne_empty : String.mk (List.replicate 10001 'a') ≠ "" := by
  intro h
  have h4 : (List.replicate 10001 'a').length = (("" : String).data.length) :=
    congrArg (fun s => s.data.length) h
  rw [List.length_replicate] at h4
  have h5 : (("" : String).data.length) = 0 := rfl
  rw [h5] at h4
  exact absurd h4 (by decide)

/-- Counterexample to C3 as stated: (a) a `type` action whose value is 10001
characters long — over the configured maximum input length — is NOT thrown:
the element is located and waited for first (`"waitFor"` occurs in the call
trace) and the failure comes back as a soft `{success:false}` result; (b) the
unsupported action name `"explode"` likewise comes back as a soft result
after the element was located and waited for. -/
theorem interactElement_soft_failure_counterexample :
    (∃ calls res,
      interactElement
        { waitForOk := true, actionFails := fun _ => false, infoOk := true,
          tagName := "INPUT", text := some "t", inputValue := some "v" }
        { selector := "#input", action := "type",
          value := some (String.mk (List.replicate 10001 'a')), options := none } =
        Except.ok (calls, res) ∧ "waitFor" ∈ calls ∧ res.success = false) ∧
    (∃ calls res,
      interactElement
        { waitForOk := true, actionFails := fun _ => false, infoOk := true,
          tagName := "DIV", text := some "t", inputValue := none }
        { selector := "#a", action := "explode", value := none, options := none } =
        Except.ok (calls, res) ∧ "waitFor" ∈ calls ∧ res.success = false) := by
  constructor
  · refine ⟨["locator", "waitFor"],
      interactionFailure ((validateInputText (String.mk (List.replicate 10001 'a'))).error.getD ""),
      ?_, by decide, rfl⟩
    exact interactElement_type_overlong_value _ _ _ (by decide) rfl rfl rfl
      replicateString_10001_ne_empty validateInputText_replicate_10001
  · refine ⟨["locator", "waitFor"], interactionFailure "Unsupported action: explode",
      ?_, by decide, rfl⟩
    exact interactElement_unsupported_action _ _ (by decide) rfl (by decide)

/-- C3 (amended): in `interact_element`, only the selector validation failure
is thrown to the caller before any browser call.  An unsupported action name,
and a `type` action whose value fails the input-text validation (exceeds the
maximum input length), are raised only after the element has been located and
waited for, and they are caught by the surrounding try/catch and returned as
soft `{success:false}` results rather than thrown. -/
theorem interactElement_validation_timing (o : ElementOracle)
    (opts : ElementInteractionOptions) :
    ((validateSelector opts.selector).valid = false →
      interactElement o opts = Except.error ((validateSelector opts.selector).error.getD "")) ∧
    ((validateSelector opts.selector).valid = true → o.waitForOk = true →
      (opts.action ∉ (["click", "type", "select", "hover", "focus", "clear"] : List String) →
        interactElement o opts =
          Except.ok (["locator", "waitFor"],
            interactionFailure ("Unsupported action: " ++ opts.action))) ∧
      (∀ v, opts.action = "type" → opts.value = some v → v ≠ "" →
        (validateInputText v).valid = false →
        interactElement o opts =
          Except.ok (["locator", "waitFor"],
            interactionFailure ((validateInputText v).error.getD "")))) := by
  refine ⟨interactElement_selector_throw o opts, fun hsel hwait => ⟨?_, ?_⟩⟩
  · exact interactElement_unsupported_action o opts hsel hwait
  · intro v hact hval hvne htv
    exact interactElement_type_overlong_value o opts v hsel hwait hact hval hvne htv

/-- Witness for C3 (amended): the unsupported action `"explode"` on a valid
selector with a responsive element yields the soft failure after locate and
wait. -/
theorem interactElement_validation_timing_witness :
    interactElement
      { waitForOk := true, actionFails := fun _ => false, infoOk := true,
        tagName := "INPUT", text := some "t", inputValue := some "v" }
      { selector := "#w", action := "explode", value := none, options := none } =
      Except.ok (["locator", "waitFor"], interactionFailure "Unsupported action: explode") :=
  ((interactElement_validation_timing
      { waitForOk := true, actionFails := fun _ => false, infoOk := true,
        tagName := "INPUT", text := some "t", inputValue := some "v" }
      { selector := "#w", action := "explode", value := none, options := none }).2
    (by decide) rfl).1 (by decide)

/-- C8: `htmlToMarkdown` applied to
`<h1>Title</h1><p>Hello <b>world</b></p>` yields a string that starts with
`# Title`, contains `**world**`, and contains no literal `<` or `>`
character.  (The full output is `# Title\n\nHello **world**`.) -/
theorem htmlToMarkdown_example :
    startsWithList (htmlToMarkdown "<h1>Title</h1><p>Hello <b>world</b></p>").data
      "# Title".data = true ∧
    containsList (htmlToMarkdown "<h1>Title</h1><p>Hello <b>world</b></p>").data
      "**world**".data = true ∧
    (htmlToMarkdown "<h1>Title</h1><p>Hello <b>world</b></p>").data.all
      (fun c => !(c == '<' || c == '>')) = true := by
  decide

/-- C9: `extractContent` is independent of the `removeScripts` and
`removeStyles` options — for every page and element behaviour, format and
selector, any two values of those two options produce the identical result;
the extraction logic never reads them. -/
theorem extractContent_ignores_remove_options (po : PageOracle) (so : SelectorOracle)
    (format : String) (selector : Option String) (r1 s1 r2 s2 : Bool) :
    extractContent po so
      { format := format, selector := selector, removeScripts := r1, removeStyles := s1 } =
    extractContent po so
      { format := format, selector := selector, removeScripts := r2, removeStyles := s2 } := by
  rfl

theorem screenshot_eq_capture (cfg : BrowserConfig) (capture : Option String)
    (opts : ScreenshotCallOptions)
    (hsel : ∀ s, opts.selector = some s → s ≠ "" → (validateSelector s).valid = true) :
    screenshot cfg capture opts = screenshotCapture cfg capture opts := by
  unfold screenshot
  split
  · next sel heq =>
    by_cases hse : sel = ""
    · rw [if_pos hse]
    · rw [if_neg hse]
      have hv := hsel sel heq hse
      rw [if_neg (by simp [hv])]
  · rfl

/-- C10: in every successful screenshot result (under the browser
capability's contract that a supplied clip and a configured viewport have
positive dimensions), the metadata width and height come from the clip
rectangle when one is supplied and otherwise from the configured viewport
(defaulting to 1280×720); and they are independent of the captured image
data. -/
theorem screenshot_metadata_from_clip_or_viewport (cfg : BrowserConfig)
    (capture : Option String) (opts : ScreenshotCallOptions) (b64 : String)
    (hcap : capture = some b64)
    (hsel : ∀ s, opts.selector = some s → s ≠ "" → (validateSelector s).valid = true)
    (hclip : ∀ c, opts.clip = some c → 0 < c.width ∧ 0 < c.height)
    (hvp : ∀ v, cfg.viewport = some v → 0 < v.width ∧ 0 < v.height) :
    (screenshot cfg capture opts).success = true ∧
    (screenshot cfg capture opts).metadata = some
      { width := (opts.clip.map Clip.width).getD ((cfg.viewport.map Viewport.width).getD 1280)
        height := (opts.clip.map Clip.height).getD ((cfg.viewport.map Viewport.height).getD 720)
        format := jsOrStr opts.format "png" } ∧
    (∀ b64', (screenshot cfg (some b64') opts).metadata = (screenshot cfg capture opts).metadata) := by
  have hw : jsOrNum (opts.clip.map Clip.width) (jsOrNum (cfg.viewport.map Viewport.width) 1280)
      = (opts.clip.map Clip.width).getD ((cfg.viewport.map Viewport.width).getD 1280) := by
    cases hc : opts.clip with
    | some c =>
      have hne : c.width ≠ 0 := by
        have := (hclip c hc).1
        omega
      simp [jsOrNum, hne]
    | none =>
      cases hv : cfg.viewport with
      | some v =>
        have hne : v.width ≠ 0 := by
          have := (hvp v hv).1
          omega
        simp [jsOrNum, hne]
      | none => simp [jsOrNum]
  have hh : jsOrNum (opts.clip.map Clip.height) (jsOrNum (cfg.viewport.map Viewport.height) 720)
      = (opts.clip.map Clip.height).getD ((cfg.viewport.map Viewport.height).getD 720) := by
    cases hc : opts.clip with
    | some c =>
      have hne : c.height ≠ 0 := by
        have := (hclip c hc).2
        omega
      simp [jsOrNum, hne]
    | none =>
      cases hv : cfg.viewport with
      | some v =>
        have hne : v.height ≠ 0 := by
          have := (hvp v hv).2
          omega
        simp [jsOrNum, hne]
      | none => simp [jsOrNum]
  subst hcap
  rw [screenshot_eq_capture cfg (some b64) opts hsel]
  refine ⟨rfl, ?_, ?_⟩
  · simp only [screenshotCapture, hw, hh]
  · intro b64'
    rw [screenshot_eq_capture cfg (some b64') opts hsel]
    rfl

/-- Witness for C10: viewport 800×600 configured, clip 100×50 supplied — the
metadata reports 100×50 regardless of the captured data. -/
theorem screenshot_metadata_witness :
    (screenshot { headless := none, viewport := some { width := 800, height := 600 },
                  timeout := none, userDataDir := none, args := [] }
      (some "imgdata")
      { selector := none, fullPage := some true, format := none, quality := none,
        clip := some { x := 0, y := 0, width := 100, height := 50 },
        waitCondition := none, waitTimeout := none, additionalDelay := none }).metadata =
      some { width := 100, height := 50, format := "png" } := by
  have h := screenshot_metadata_from_clip_or_viewport
    { headless := none, viewport := some { width := 800, height := 600 },
      timeout := none, userDataDir := none, args := [] }
    (some "imgdata")
    { selector := none, fullPage := some true, format := none, quality := none,
      clip := some { x := 0, y := 0, width := 100, height := 50 },
      waitCondition := none, waitTimeout := none, additionalDelay := none }
    "imgdata" rfl
    (by intro s hs hne; simp at hs)
    (by intro c hc; injection hc with h2; subst h2; exact ⟨by decide, by decide⟩)
    (by intro v hv; injection hv with h2; subst h2; exact ⟨by decide, by decide⟩)
  exact h.2.1

end ChromeConnector
